import Mathlib

/-!
Verification development for the dynamic-vat creation subsystem
(packages/SwingSet/src/kernel/dynamicVat.js).

The subsystem is embedded shallowly: kernel-global state (identifier
counter, vat manager registry, export table, run queue) is an explicit
state record; the promise chain of createVatDynamically is a small-step
machine whose program counter records the settlement of the previous
stage; the external endowments (vatNameToID, addVatManager, addExport,
queueToExport, importBundle) are driven by an environment record that
says how each behaves.
-/

namespace DynamicVat

/-- A JavaScript Error value: a name and a message, as produced by
Error(message). -/
structure JsErr where
  name : String
  message : String
  deriving DecidableEq, Repr

/-- The Error(message) constructor: the name of the resulting error is
"Error". -/
def mkError (message : String) : JsErr := ⟨"Error", message⟩

/-- Error.prototype.toString, the conversion applied by a template literal
on an error value (as in makeErrorResponse): name and message joined by
": ", dropping an empty part. -/
def jsErrorString (e : JsErr) : String :=
  if e.name = "" then e.message
  else if e.message = "" then e.name
  else e.name ++ ": " ++ e.message

/-- Escaping of one character inside a JSON string literal, as done by
JSON.stringify. -/
def escapeChar (c : Char) : String :=
  if c = '"' then "\\\""
  else if c = '\\' then "\\\\"
  else if c = '\n' then "\\n"
  else if c = '\t' then "\\t"
  else if c = '\r' then "\\r"
  else String.singleton c

/-- JSON.stringify applied to a string value: quote and escape. -/
def jsonString (s : String) : String :=
  "\"" ++ String.join (s.data.map escapeChar) ++ "\""

/-- JSON.stringify([vatID, \x7b rootObject: \x7b '@qclass': 'slot', index: 0 \x7d \x7d]):
the body built by makeSuccessResponse. -/
def successBody (vatID : String) : String :=
  "[" ++ jsonString vatID ++ ",\x7b\"rootObject\":\x7b\"@qclass\":\"slot\",\"index\":0\x7d\x7d]"

/-- JSON.stringify([vatID, \x7b error: template-string of the error \x7d]): the
body built by makeErrorResponse. -/
def errorBody (vatID : String) (error : JsErr) : String :=
  "[" ++ jsonString vatID ++ ",\x7b\"error\":" ++ jsonString (jsErrorString error) ++ "\x7d]"

/-- JSON.stringify([vatID, error-descriptor-or-undefined-marker]): the body
built by notifyTermination. -/
def terminationBody (vatID : String) (error : Option JsErr) : String :=
  "[" ++ jsonString vatID ++ "," ++
    (match error with
     | some e =>
       "\x7b\"@qclass\":\"error\",\"name\":" ++ jsonString e.name ++
         ",\"message\":" ++ jsonString e.message ++ "\x7d"
     | none => "\x7b\"@qclass\":\"undefined\"\x7d") ++ "]"

/-- A parsed vat slot, as built by makeVatSlot(type, exported, id) from
parseVatSlots. -/
structure VatSlot where
  slotType : String
  exported : Bool
  slotId : Nat
  deriving DecidableEq, Repr

/-- makeVatSlot from parseVatSlots, kept structured. -/
def makeVatSlot (slotType : String) (exported : Bool) (slotId : Nat) : VatSlot :=
  ⟨slotType, exported, slotId⟩

/-- makeVatRootObjectSlot(): the slot of a vat's root object, local object
index 0. -/
def makeVatRootObjectSlot : VatSlot := makeVatSlot "object" true 0

/-- A message placed on the kernel run queue by queueToExport. -/
structure VatMessage where
  target : String
  targetSlot : VatSlot
  method : String
  body : String
  slots : List Nat
  errorPolicy : String
  deriving DecidableEq, Repr

/-- The args record handed to queueToExport: a serialized body plus the
kernel slots it references. -/
structure ResponseArgs where
  body : String
  slots : List Nat
  deriving DecidableEq, Repr

/-- The meter policy flags passed to makeGetMeter. -/
structure MeterOptions where
  refillEachCrank : Bool
  refillIfExhausted : Bool
  deriving DecidableEq, Repr

/-- Modelled from the spec: the kernel-global state touched by the
endowments of makeDynamicVatCreator (identifier allocator, vat manager
registry, export table, run queue); the kernel that owns them is outside
this subsystem. -/
structure KernelState where
  nextVatID : Nat
  vatManagers : List (String × String)
  exports : List (String × VatSlot × Nat)
  nextKernelSlot : Nat
  runQueue : List VatMessage
  deriving DecidableEq, Repr

/-- Behavior of the external endowments: the admin vat id returned by
vatNameToID('vatAdmin'), and whether each fallible endowment throws. -/
structure Env where
  vatAdminVatId : String
  addVatManagerThrows : Option JsErr
  addExportThrows : Option JsErr
  queueToExportThrows : Bool
  deriving DecidableEq, Repr

/-- Settlement of a promise stage: fulfilled with a value or rejected with
a JS error. -/
inductive Outcome (α : Type) where
  | ok (a : α)
  | err (e : JsErr)
  deriving DecidableEq, Repr

/-- The part of a loaded module namespace this subsystem inspects: whether
typeof vatNS.buildRootObject is 'function'. -/
structure ModuleNamespace where
  buildRootObjectIsFunction : Bool
  deriving DecidableEq, Repr

/-- Result of the external importBundle call on an object bundle. -/
inductive ImportOutcome where
  | failed (e : JsErr)
  | loaded (ns : ModuleNamespace)
  deriving DecidableEq, Repr

/-- The JavaScript value passed as vatSourceBundle, classified by typeof;
an object bundle (null included, since typeof null is 'object') carries
the outcome the external importBundle would produce for it. -/
inductive BundleInput where
  | strVal (s : String)
  | numVal (n : Int)
  | funVal
  | undefVal
  | objVal (isNull : Bool) (imp : ImportOutcome)
  deriving DecidableEq, Repr

/-- typeof vatSourceBundle. -/
def typeofBundle : BundleInput → String
  | .strVal _ => "string"
  | .numVal _ => "number"
  | .funVal => "function"
  | .undefVal => "undefined"
  | .objVal _ _ => "object"

/-- Modelled from the spec: the external importBundle evaluates the bundle
to a module namespace (or fails); we read off the outcome carried by the
bundle value. Only reached behind the typeof guard. -/
def importBundle : BundleInput → ImportOutcome
  | .objVal _ imp => imp
  | _ => .failed (mkError "importBundle requires a bundle object")

/-- The makeBuildRootObject stage: typeof check, importBundle, entry-point
check. On success it resolves to the namespace holding buildRootObject. -/
def makeBuildRootObject (vatSourceBundle : BundleInput) : Outcome ModuleNamespace :=
  if typeofBundle vatSourceBundle ≠ "object" then
    .err (mkError "createVatDynamically() requires bundle, not a plain string")
  else
    match importBundle vatSourceBundle with
    | .failed e => .err e
    | .loaded vatNS =>
      if vatNS.buildRootObjectIsFunction = false then
        .err (mkError "vat source bundle does not export buildRootObject function")
      else
        .ok vatNS

/-- The loading stage that follows the bundle-kind validation: the
importBundle call and the buildRootObject entry-point check. -/
def loadingStage (imp : ImportOutcome) : Outcome ModuleNamespace :=
  match imp with
  | .failed e => .err e
  | .loaded vatNS =>
    if vatNS.buildRootObjectIsFunction = false then
      .err (mkError "vat source bundle does not export buildRootObject function")
    else
      .ok vatNS

/-- Modelled from the spec: addExport allocates a fresh kernel-wide slot id
for (vatID, vat slot) in the export table and returns it. -/
def addExport (st : KernelState) (vatID : String) (slot : VatSlot) : Nat × KernelState :=
  (st.nextKernelSlot,
   { st with exports := st.exports ++ [(vatID, slot, st.nextKernelSlot)],
             nextKernelSlot := st.nextKernelSlot + 1 })

/-- Modelled from the spec: queueToExport appends an addressed message to
the kernel run queue (the env flag says whether the endowment throws
instead). -/
def queueToExport (env : Env) (st : KernelState) (target : String) (targetSlot : VatSlot)
    (method : String) (args : ResponseArgs) (errorPolicy : String) :
    Outcome Unit × KernelState :=
  if env.queueToExportThrows then
    (.err (mkError "queueToExport failed"), st)
  else
    (.ok (),
     { st with runQueue := st.runQueue ++
         [{ target := target, targetSlot := targetSlot, method := method,
            body := args.body, slots := args.slots, errorPolicy := errorPolicy }] })

/-- Modelled from the spec: addVatManager registers the vat manager in the
kernel registry, all-or-nothing (the env flag says whether it throws). -/
def addVatManager (env : Env) (st : KernelState) (vatID : String) (nameStr : String) :
    Outcome Unit × KernelState :=
  match env.addVatManagerThrows with
  | some e => (.err e, st)
  | none => (.ok (), { st with vatManagers := st.vatManagers ++ [(vatID, nameStr)] })

/-- makeErrorResponse: body [vatID, \x7b error: template-string of the error \x7d],
empty slot list. -/
def makeErrorResponse (vatID : String) (error : JsErr) : ResponseArgs :=
  { body := errorBody vatID error, slots := [] }

/-- makeSuccessResponse: allocate the kernel export slot for the vat's root
object, then build the success args whose body references slots[0]. -/
def makeSuccessResponse (env : Env) (vatID : String) (st : KernelState) :
    Outcome ResponseArgs × KernelState :=
  match env.addExportThrows with
  | some e => (.err e, st)
  | none =>
    let r := addExport st vatID makeVatRootObjectSlot
    (.ok { body := successBody vatID, slots := [r.1] }, r.2)

/-- sendResponse: queue the newVatCallback message to the admin vat's root
object slot. -/
def sendResponse (env : Env) (st : KernelState) (args : ResponseArgs) :
    Outcome Unit × KernelState :=
  queueToExport env st env.vatAdminVatId makeVatRootObjectSlot "newVatCallback" args "logFailure"

/-- The program counter of the promise chain in createVatDynamically; each
constructor after start carries the settlement of the previous stage. -/
inductive Stage where
  | start
  | built (r : Outcome ModuleNamespace)
  | managed (r : Outcome Unit)
  | responded (r : Outcome ResponseArgs)
  | sent (r : Outcome Unit)
  | settled (logged : Option JsErr)
  deriving DecidableEq, Repr

/-- One in-flight dynamic vat creation: the closure state of
createVatDynamically (vat id, bundle, meter record, one-shot terminated
flag) plus the pipeline's program counter. -/
structure CreationProcess where
  vatID : String
  bundle : BundleInput
  meter : MeterOptions
  terminated : Bool
  stage : Stage
  deriving DecidableEq, Repr

/-- One microtask turn of the chain
Promise.resolve().then(makeBuildRootObject).then(makeVatManager)
.then(makeSuccessResponse, makeErrorResponse).then(sendResponse)
.catch(log): run the next continuation on the previous settlement. -/
def stepPipeline (env : Env) (p : CreationProcess) (st : KernelState) :
    CreationProcess × KernelState :=
  match p.stage with
  | .start => ({ p with stage := .built (makeBuildRootObject p.bundle) }, st)
  | .built r =>
    match r with
    | .err e => ({ p with stage := .managed (.err e) }, st)
    | .ok _ =>
      let r2 := addVatManager env st p.vatID ("dynamicVat" ++ p.vatID)
      ({ p with stage := .managed r2.1 }, r2.2)
  | .managed r =>
    match r with
    | .err e => ({ p with stage := .responded (.ok (makeErrorResponse p.vatID e)) }, st)
    | .ok _ =>
      let r2 := makeSuccessResponse env p.vatID st
      ({ p with stage := .responded r2.1 }, r2.2)
  | .responded r =>
    match r with
    | .err e => ({ p with stage := .sent (.err e) }, st)
    | .ok args =>
      let r2 := sendResponse env st args
      ({ p with stage := .sent r2.1 }, r2.2)
  | .sent r =>
    match r with
    | .err e => ({ p with stage := .settled (some e) }, st)
    | .ok _ => ({ p with stage := .settled none }, st)
  | .settled _ => (p, st)

/-- notifyTermination: one-shot termination notice guarded by the
terminated flag; the message goes to the admin vat's root object slot with
an empty slot list. -/
def notifyTermination (env : Env) (error : Option JsErr) (p : CreationProcess)
    (st : KernelState) : CreationProcess × KernelState :=
  if p.terminated then (p, st)
  else
    let args : ResponseArgs := { body := terminationBody p.vatID error, slots := [] }
    let r := queueToExport env st env.vatAdminVatId makeVatRootObjectSlot
      "vatTerminated" args "logFailure"
    ({ p with terminated := true }, r.2)

/-- A scheduled unit of work touching one creation: a crank of its pipeline
or an invocation of its termination notifier (from any source, with any
error argument). -/
inductive Event where
  | crank
  | terminate (error : Option JsErr)
  deriving DecidableEq, Repr

/-- Run one creation through an arbitrary schedule of events. -/
def runEvents (env : Env) : CreationProcess → KernelState → List Event →
    CreationProcess × KernelState
  | p, st, [] => (p, st)
  | p, st, .crank :: rest =>
    let r := stepPipeline env p st
    runEvents env r.1 r.2 rest
  | p, st, .terminate err :: rest =>
    let r := notifyTermination env err p st
    runEvents env r.1 r.2 rest

/-- Modelled from the spec: allocateUnusedVatID issues fresh, monotonically
increasing vat ids vNN. -/
def allocateUnusedVatID (st : KernelState) : String × KernelState :=
  ("v" ++ toString st.nextVatID, { st with nextVatID := st.nextVatID + 1 })

/-- Modelled from the spec: makeGetMeter provisions a MeterRecord with the
given policy flags; the budget itself is consulted by the external crank
driver, so only the flags are observable here. -/
def makeGetMeter (opts : MeterOptions) : MeterOptions := opts

/-- What createVatDynamically has done by the time it returns: the vat id
it returns, the kernel state after the synchronous part, and the scheduled
(not yet started) background pipeline. -/
structure SyncResult where
  vatID : String
  state : KernelState
  process : CreationProcess
  deriving DecidableEq, Repr

/-- The synchronous part of createVatDynamically: allocate the vat id and
the meter record, schedule the pipeline, and return the vat id right
away. -/
def createVatDynamically (st : KernelState) (vatSourceBundle : BundleInput) : SyncResult :=
  let r := allocateUnusedVatID st
  let meterRecord := makeGetMeter { refillEachCrank := false, refillIfExhausted := false }
  { vatID := r.1
    state := r.2
    process := { vatID := r.1, bundle := vatSourceBundle, meter := meterRecord,
                 terminated := false, stage := .start } }

/-- Number of messages with a given method. -/
def countMethod (ms : List VatMessage) (method : String) : Nat :=
  (ms.filter (fun m => m.method = method)).length

/-- How many newVatCallback messages the pipeline has emitted by a given
stage. -/
def stageNvc : Stage → Nat
  | .sent (.ok _) => 1
  | .settled none => 1
  | _ => 0

/-- Position of a stage along the chain. -/
def stageIdx : Stage → Nat
  | .start => 0
  | .built _ => 1
  | .managed _ => 2
  | .responded _ => 3
  | .sent _ => 4
  | .settled _ => 5

/-- Stages reachable when the response and send endowments do not throw. -/
def goodStage : Stage → Prop
  | .responded (.err _) => False
  | .sent (.err _) => False
  | .settled (some _) => False
  | _ => True

/-- Stage discipline of a pipeline whose build stage failed with error e. -/
def onErrorPath (env : Env) (vatID : String) (e : JsErr) : Stage → Prop
  | .start => True
  | .built r => r = .err e
  | .managed r => r = .err e
  | .responded r => r = .ok (makeErrorResponse vatID e)
  | .sent r => env.queueToExportThrows = false → r = .ok ()
  | .settled logged => env.queueToExportThrows = false → logged = none

theorem countMethod_append (a b : List VatMessage) (m : String) :
    countMethod (a ++ b) m = countMethod a m + countMethod b m := by
  simp [countMethod, List.filter_append]

theorem stageNvc_le_one (s : Stage) : stageNvc s ≤ 1 := by
  cases s with
  | sent r => cases r <;> simp [stageNvc]
  | settled l => cases l <;> simp [stageNvc]
  | _ => simp [stageNvc]

/-- One crank changes the run queue only by appending newVatCallback
messages to the admin vat, in step with the stage's message count, and
preserves the closure fields; with non-throwing response and send
endowments the stage stays on the good branch. -/
theorem stepPipeline_nvc (env : Env) (p : CreationProcess) (st : KernelState) :
    ∃ ms,
      (stepPipeline env p st).2.runQueue = st.runQueue ++ ms ∧
      countMethod ms "newVatCallback" + stageNvc p.stage =
        stageNvc (stepPipeline env p st).1.stage ∧
      (∀ m ∈ ms, m.method = "newVatCallback" ∧
        m.target = env.vatAdminVatId ∧ m.targetSlot = makeVatRootObjectSlot) ∧
      (env.addExportThrows = none → env.queueToExportThrows = false →
        goodStage p.stage → goodStage (stepPipeline env p st).1.stage) ∧
      (stepPipeline env p st).1.vatID = p.vatID ∧
      (stepPipeline env p st).1.bundle = p.bundle ∧
      (stepPipeline env p st).1.meter = p.meter ∧
      (stepPipeline env p st).1.terminated = p.terminated := by
  rcases p with ⟨vid, b, mt, term, stg⟩
  cases stg with
  | start =>
    exact ⟨[], by simp [stepPipeline], by simp [stepPipeline, stageNvc, countMethod],
      by simp, by simp [stepPipeline, goodStage], rfl, rfl, rfl, rfl⟩
  | built r =>
    cases r with
    | err e =>
      exact ⟨[], by simp [stepPipeline], by simp [stepPipeline, stageNvc, countMethod],
        by simp, by simp [stepPipeline, goodStage], rfl, rfl, rfl, rfl⟩
    | ok ns =>
      cases henv : env.addVatManagerThrows with
      | some e =>
        exact ⟨[], by simp [stepPipeline, addVatManager, henv],
          by simp [stepPipeline, addVatManager, henv, stageNvc, countMethod],
          by simp, by simp [stepPipeline, addVatManager, henv, goodStage],
          by simp [stepPipeline, addVatManager, henv],
          by simp [stepPipeline, addVatManager, henv],
          by simp [stepPipeline, addVatManager, henv],
          by simp [stepPipeline, addVatManager, henv]⟩
      | none =>
        exact ⟨[], by simp [stepPipeline, addVatManager, henv],
          by simp [stepPipeline, addVatManager, henv, stageNvc, countMethod],
          by simp, by simp [stepPipeline, addVatManager, henv, goodStage],
          by simp [stepPipeline, addVatManager, henv],
          by simp [stepPipeline, addVatManager, henv],
          by simp [stepPipeline, addVatManager, henv],
          by simp [stepPipeline, addVatManager, henv]⟩
  | managed r =>
    cases r with
    | err e =>
      exact ⟨[], by simp [stepPipeline], by simp [stepPipeline, stageNvc, countMethod],
        by simp, by simp [stepPipeline, goodStage], rfl, rfl, rfl, rfl⟩
    | ok u =>
      cases henv : env.addExportThrows with
      | some e =>
        exact ⟨[], by simp [stepPipeline, makeSuccessResponse, henv],
          by simp [stepPipeline, makeSuccessResponse, henv, stageNvc, countMethod],
          by simp, by simp,
          by simp [stepPipeline, makeSuccessResponse, henv],
          by simp [stepPipeline, makeSuccessResponse, henv],
          by simp [stepPipeline, makeSuccessResponse, henv],
          by simp [stepPipeline, makeSuccessResponse, henv]⟩
      | none =>
        exact ⟨[], by simp [stepPipeline, makeSuccessResponse, addExport, henv],
          by simp [stepPipeline, makeSuccessResponse, addExport, henv, stageNvc, countMethod],
          by simp,
          by simp [stepPipeline, makeSuccessResponse, addExport, henv, goodStage],
          by simp [stepPipeline, makeSuccessResponse, addExport, henv],
          by simp [stepPipeline, makeSuccessResponse, addExport, henv],
          by simp [stepPipeline, makeSuccessResponse, addExport, henv],
          by simp [stepPipeline, makeSuccessResponse, addExport, henv]⟩
  | responded r =>
    cases r with
    | err e =>
      refine ⟨[], by simp [stepPipeline], by simp [stepPipeline, stageNvc, countMethod],
        by simp, ?_, rfl, rfl, rfl, rfl⟩
      intro _ _ hg
      exact absurd hg (by simp [goodStage])
    | ok args =>
      cases hq : env.queueToExportThrows with
      | true =>
        exact ⟨[], by simp [stepPipeline, sendResponse, queueToExport, hq],
          by simp [stepPipeline, sendResponse, queueToExport, hq, stageNvc, countMethod],
          by simp, by simp,
          by simp [stepPipeline, sendResponse, queueToExport, hq],
          by simp [stepPipeline, sendResponse, queueToExport, hq],
          by simp [stepPipeline, sendResponse, queueToExport, hq],
          by simp [stepPipeline, sendResponse, queueToExport, hq]⟩
      | false =>
        exact ⟨[⟨env.vatAdminVatId, makeVatRootObjectSlot, "newVatCallback",
            args.body, args.slots, "logFailure"⟩],
          by simp [stepPipeline, sendResponse, queueToExport, hq],
          by simp [stepPipeline, sendResponse, queueToExport, hq, stageNvc, countMethod],
          by simp,
          by simp [stepPipeline, sendResponse, queueToExport, hq, goodStage],
          by simp [stepPipeline, sendResponse, queueToExport, hq],
          by simp [stepPipeline, sendResponse, queueToExport, hq],
          by simp [stepPipeline, sendResponse, queueToExport, hq],
          by simp [stepPipeline, sendResponse, queueToExport, hq]⟩
  | sent r =>
    cases r with
    | err e =>
      refine ⟨[], by simp [stepPipeline], by simp [stepPipeline, stageNvc, countMethod],
        by simp, ?_, rfl, rfl, rfl, rfl⟩
      intro _ _ hg
      exact absurd hg (by simp [goodStage])
    | ok u =>
      exact ⟨[], by simp [stepPipeline], by simp [stepPipeline, stageNvc, countMethod],
        by simp, by simp [stepPipeline, goodStage], rfl, rfl, rfl, rfl⟩
  | settled l =>
    exact ⟨[], by simp [stepPipeline], by simp [stepPipeline, countMethod],
      by simp, by simp [stepPipeline], rfl, rfl, rfl, rfl⟩

/-- One invocation of the termination notifier: it appends at most one
message (always a vatTerminated one of the documented shape), is a no-op
once the flag is set, sets the flag otherwise, and touches nothing else. -/
theorem notifyTermination_facts (env : Env) (err : Option JsErr) (p : CreationProcess)
    (st : KernelState) :
    ∃ ms,
      (notifyTermination env err p st).2.runQueue = st.runQueue ++ ms ∧
      (∀ m ∈ ms, m.method = "vatTerminated" ∧ m.target = env.vatAdminVatId ∧
        m.targetSlot = makeVatRootObjectSlot ∧ m.slots = [] ∧
        m.body = terminationBody p.vatID err) ∧
      countMethod ms "vatTerminated" ≤ 1 ∧
      countMethod ms "newVatCallback" = 0 ∧
      (notifyTermination env err p st).1.stage = p.stage ∧
      (notifyTermination env err p st).1.vatID = p.vatID ∧
      (notifyTermination env err p st).1.bundle = p.bundle ∧
      (notifyTermination env err p st).1.meter = p.meter ∧
      (p.terminated = true → notifyTermination env err p st = (p, st)) ∧
      (p.terminated = true → (notifyTermination env err p st).1.terminated = true) ∧
      (p.terminated = false → (notifyTermination env err p st).1.terminated = true) ∧
      (p.terminated = false → env.queueToExportThrows = false →
        countMethod ms "vatTerminated" = 1) ∧
      (notifyTermination env err p st).2.vatManagers = st.vatManagers ∧
      (notifyTermination env err p st).2.exports = st.exports ∧
      (notifyTermination env err p st).2.nextKernelSlot = st.nextKernelSlot := by
  cases hterm : p.terminated with
  | true =>
    exact ⟨[], by simp [notifyTermination, hterm], by simp, by simp [countMethod],
      by simp [countMethod], by simp [notifyTermination, hterm],
      by simp [notifyTermination, hterm], by simp [notifyTermination, hterm],
      by simp [notifyTermination, hterm], fun _ => by simp [notifyTermination, hterm],
      fun _ => by simp [notifyTermination, hterm], by simp,
      by simp, by simp [notifyTermination, hterm], by simp [notifyTermination, hterm],
      by simp [notifyTermination, hterm]⟩
  | false =>
    cases hq : env.queueToExportThrows with
    | true =>
      exact ⟨[], by simp [notifyTermination, queueToExport, hterm, hq], by simp,
        by simp [countMethod], by simp [countMethod],
        by simp [notifyTermination, queueToExport, hterm, hq],
        by simp [notifyTermination, queueToExport, hterm, hq],
        by simp [notifyTermination, queueToExport, hterm, hq],
        by simp [notifyTermination, queueToExport, hterm, hq],
        by simp, by simp,
        by simp [notifyTermination, queueToExport, hterm, hq],
        by simp,
        by simp [notifyTermination, queueToExport, hterm, hq],
        by simp [notifyTermination, queueToExport, hterm, hq],
        by simp [notifyTermination, queueToExport, hterm, hq]⟩
    | false =>
      exact ⟨[⟨env.vatAdminVatId, makeVatRootObjectSlot, "vatTerminated",
          terminationBody p.vatID err, [], "logFailure"⟩],
        by simp [notifyTermination, queueToExport, hterm, hq], by simp,
        by simp [countMethod], by simp [countMethod],
        by simp [notifyTermination, queueToExport, hterm, hq],
        by simp [notifyTermination, queueToExport, hterm, hq],
        by simp [notifyTermination, queueToExport, hterm, hq],
        by simp [notifyTermination, queueToExport, hterm, hq],
        by simp, by simp,
        by simp [notifyTermination, queueToExport, hterm, hq],
        by simp [countMethod],
        by simp [notifyTermination, queueToExport, hterm, hq],
        by simp [notifyTermination, queueToExport, hterm, hq],
        by simp [notifyTermination, queueToExport, hterm, hq]⟩

/-- Over any schedule, the run queue only grows by appended messages, the
number of appended newVatCallback messages matches the stage's message
count, every such message targets the admin vat's root slot, and with
non-throwing response and send endowments the stage stays good. -/
theorem runEvents_nvc (env : Env) (events : List Event) :
    ∀ p st, ∃ ms,
      (runEvents env p st events).2.runQueue = st.runQueue ++ ms ∧
      countMethod ms "newVatCallback" + stageNvc p.stage =
        stageNvc (runEvents env p st events).1.stage ∧
      (∀ m ∈ ms, m.method = "newVatCallback" →
        m.target = env.vatAdminVatId ∧ m.targetSlot = makeVatRootObjectSlot) ∧
      (env.addExportThrows = none → env.queueToExportThrows = false →
        goodStage p.stage → goodStage (runEvents env p st events).1.stage) := by
  induction events with
  | nil =>
    intro p st
    exact ⟨[], by simp [runEvents], by simp [runEvents, countMethod], by simp,
      fun _ _ h => by simpa [runEvents] using h⟩
  | cons e rest ih =>
    intro p st
    cases e with
    | crank =>
      obtain ⟨ms1, hq1, hc1, hm1, hg1, _, _, _, _⟩ := stepPipeline_nvc env p st
      obtain ⟨ms2, hq2, hc2, hm2, hg2⟩ := ih (stepPipeline env p st).1 (stepPipeline env p st).2
      have hrun : runEvents env p st (.crank :: rest) =
          runEvents env (stepPipeline env p st).1 (stepPipeline env p st).2 rest := by
        simp [runEvents]
      refine ⟨ms1 ++ ms2, ?_, ?_, ?_, ?_⟩
      · rw [hrun, hq2, hq1, List.append_assoc]
      · try rw [hrun]
        try rw [countMethod_append]
        omega
      · intro m hm hmeth
        rcases List.mem_append.mp hm with h | h
        · exact ⟨(hm1 m h).2.1, (hm1 m h).2.2⟩
        · exact hm2 m h hmeth
      · intro h1 h2 h3
        exact hg2 h1 h2 (hg1 h1 h2 h3)
    | terminate err =>
      obtain ⟨ms1, hq1, hm1, _, hnvc1, hstage1, _, _, _, _, _, _, _, _, _, _⟩ :=
        notifyTermination_facts env err p st
      obtain ⟨ms2, hq2, hc2, hm2, hg2⟩ :=
        ih (notifyTermination env err p st).1 (notifyTermination env err p st).2
      have hrun : runEvents env p st (.terminate err :: rest) =
          runEvents env (notifyTermination env err p st).1 (notifyTermination env err p st).2
            rest := by
        simp [runEvents]
      refine ⟨ms1 ++ ms2, ?_, ?_, ?_, ?_⟩
      · rw [hrun, hq2, hq1, List.append_assoc]
      · try rw [hrun]
        try rw [countMethod_append]
        rw [hstage1] at hc2
        omega
      · intro m hm hmeth
        rcases List.mem_append.mp hm with h | h
        · exact absurd hmeth (by simp [(hm1 m h).1])
        · exact hm2 m h hmeth
      · intro h1 h2 h3
        refine hg2 h1 h2 ?_
        rw [hstage1]
        exact h3

theorem countMethod_cons (a : VatMessage) (t : List VatMessage) (meth : String) :
    countMethod (a :: t) meth =
      (if a.method = meth then 1 else 0) + countMethod t meth := by
  by_cases h : a.method = meth <;>
    simp [countMethod, List.filter_cons, h, Nat.add_comm]

theorem countMethod_zero_of (ms : List VatMessage) (meth : String)
    (h : ∀ m ∈ ms, m.method ≠ meth) : countMethod ms meth = 0 := by
  induction ms with
  | nil => rfl
  | cons a t ih =>
    rw [countMethod_cons]
    have ha := h a (by simp)
    rw [if_neg ha, ih (fun m hm => h m (by simp [hm]))]

/-- Over any schedule, at most one vatTerminated message is appended (none
if the flag was already set), every appended vatTerminated message has the
documented shape, and — when the queue endowment does not throw — a
schedule containing a termination event appends at least one. -/
theorem runEvents_vt (env : Env) (events : List Event) :
    ∀ p st, ∃ ms,
      (runEvents env p st events).2.runQueue = st.runQueue ++ ms ∧
      countMethod ms "vatTerminated" + (if p.terminated then 1 else 0) ≤ 1 ∧
      (∀ m ∈ ms, m.method = "vatTerminated" →
        m.target = env.vatAdminVatId ∧ m.targetSlot = makeVatRootObjectSlot ∧
        m.slots = [] ∧ ∃ e, m.body = terminationBody p.vatID e) ∧
      (env.queueToExportThrows = false → p.terminated = false →
        (∃ e, Event.terminate e ∈ events) → 1 ≤ countMethod ms "vatTerminated") := by
  induction events with
  | nil =>
    intro p st
    refine ⟨[], by simp [runEvents], ?_, by simp, ?_⟩
    · cases p.terminated <;> simp [countMethod]
    · rintro _ _ ⟨e, he⟩
      exact absurd he (by simp)
  | cons ev rest ih =>
    intro p st
    cases ev with
    | crank =>
      obtain ⟨ms1, hq1, _, hm1, _, hvid1, _, _, hterm1⟩ := stepPipeline_nvc env p st
      obtain ⟨ms2, hq2, hc2, hm2, hlast2⟩ :=
        ih (stepPipeline env p st).1 (stepPipeline env p st).2
      have hvt1 : countMethod ms1 "vatTerminated" = 0 :=
        countMethod_zero_of ms1 _ (fun m hm => by simp [(hm1 m hm).1])
      refine ⟨ms1 ++ ms2, ?_, ?_, ?_, ?_⟩
      · simp only [runEvents]
        rw [hq2, hq1, List.append_assoc]
      · rw [countMethod_append, hvt1]
        rw [hterm1] at hc2
        omega
      · intro m hm hmeth
        rcases List.mem_append.mp hm with h | h
        · exact absurd hmeth (by simp [(hm1 m h).1])
        · have := hm2 m h hmeth
          rw [hvid1] at this
          exact this
      · intro hqf htf ⟨e, he⟩
        have he2 : Event.terminate e ∈ rest := by
          rcases List.mem_cons.mp he with h | h
          · exact absurd h (by simp)
          · exact h
        have := hlast2 hqf (by rw [hterm1]; exact htf) ⟨e, he2⟩
        rw [countMethod_append]
        omega
    | terminate err2 =>
      obtain ⟨ms1, hq1, hm1, hle1, _, hstage1, hvid1, _, _, hid1, _, hset1, hone1,
        _, _, _⟩ := notifyTermination_facts env err2 p st
      obtain ⟨ms2, hq2, hc2, hm2, hlast2⟩ :=
        ih (notifyTermination env err2 p st).1 (notifyTermination env err2 p st).2
      cases hterm : p.terminated with
      | true =>
        refine ⟨ms1 ++ ms2, ?_, ?_, ?_, ?_⟩
        · simp only [runEvents]
          rw [hq2, hq1, List.append_assoc]
        · have hnil : ms1 = [] := by
            have := hid1 hterm
            have hq1b := hq1
            rw [this] at hq1b
            exact (List.self_eq_append_right.mp hq1b)
          have hterm2 : (notifyTermination env err2 p st).1.terminated = true := by
            rw [hid1 hterm]
            exact hterm
          rw [hterm2] at hc2
          rw [hnil]
          simpa using hc2
        · intro m hm hmeth
          rcases List.mem_append.mp hm with h | h
          · obtain ⟨_, h2, h3, h4, h5⟩ := hm1 m h
            exact ⟨h2, h3, h4, ⟨err2, h5⟩⟩
          · have := hm2 m h hmeth
            rw [hvid1] at this
            exact this
        · intro _ htf
          exact absurd htf (by simp)
      | false =>
        have hterm2 : (notifyTermination env err2 p st).1.terminated = true :=
          hset1 hterm
        refine ⟨ms1 ++ ms2, ?_, ?_, ?_, ?_⟩
        · simp only [runEvents]
          rw [hq2, hq1, List.append_assoc]
        · rw [countMethod_append]
          rw [hterm2] at hc2
          simp at hc2 ⊢
          omega
        · intro m hm hmeth
          rcases List.mem_append.mp hm with h | h
          · obtain ⟨_, h2, h3, h4, h5⟩ := hm1 m h
            exact ⟨h2, h3, h4, ⟨err2, h5⟩⟩
          · have := hm2 m h hmeth
            rw [hvid1] at this
            exact this
        · intro hqf _ _
          have := hone1 hterm hqf
          rw [countMethod_append]
          omega

/-- One crank of a pipeline whose build stage fails with e: it stays on the
error path, registers nothing, allocates nothing, and the only message it
can append is the failure newVatCallback with body errorBody and no
slots. -/
theorem stepPipeline_errorPath (env : Env) (p : CreationProcess) (st : KernelState)
    (e : JsErr) (hb : makeBuildRootObject p.bundle = .err e)
    (hp : onErrorPath env p.vatID e p.stage) :
    ∃ ms,
      (stepPipeline env p st).2.runQueue = st.runQueue ++ ms ∧
      onErrorPath env p.vatID e (stepPipeline env p st).1.stage ∧
      (stepPipeline env p st).2.vatManagers = st.vatManagers ∧
      (stepPipeline env p st).2.exports = st.exports ∧
      (stepPipeline env p st).2.nextKernelSlot = st.nextKernelSlot ∧
      countMethod ms "newVatCallback" + stageNvc p.stage =
        stageNvc (stepPipeline env p st).1.stage ∧
      (∀ m ∈ ms, m.method = "newVatCallback" →
        m.body = errorBody p.vatID e ∧ m.slots = [] ∧
        m.target = env.vatAdminVatId ∧ m.targetSlot = makeVatRootObjectSlot) ∧
      (stepPipeline env p st).1.vatID = p.vatID ∧
      (stepPipeline env p st).1.bundle = p.bundle := by
  rcases p with ⟨vid, b, mt, term, stg⟩
  simp only at hb hp ⊢
  cases stg with
  | start =>
    exact ⟨[], by simp [stepPipeline], by simp [stepPipeline, onErrorPath, hb],
      by simp [stepPipeline], by simp [stepPipeline], by simp [stepPipeline],
      by simp [stepPipeline, stageNvc, countMethod], by simp,
      by simp [stepPipeline], by simp [stepPipeline]⟩
  | built r =>
    have hr : r = .err e := hp
    subst hr
    exact ⟨[], by simp [stepPipeline], by simp [stepPipeline, onErrorPath],
      by simp [stepPipeline], by simp [stepPipeline], by simp [stepPipeline],
      by simp [stepPipeline, stageNvc, countMethod], by simp,
      by simp [stepPipeline], by simp [stepPipeline]⟩
  | managed r =>
    have hr : r = .err e := hp
    subst hr
    exact ⟨[], by simp [stepPipeline], by simp [stepPipeline, onErrorPath],
      by simp [stepPipeline], by simp [stepPipeline], by simp [stepPipeline],
      by simp [stepPipeline, stageNvc, countMethod], by simp,
      by simp [stepPipeline], by simp [stepPipeline]⟩
  | responded r =>
    have hr : r = .ok (makeErrorResponse vid e) := hp
    subst hr
    cases hq : env.queueToExportThrows with
    | true =>
      refine ⟨[], by simp [stepPipeline, sendResponse, queueToExport, hq], ?_,
        by simp [stepPipeline, sendResponse, queueToExport, hq],
        by simp [stepPipeline, sendResponse, queueToExport, hq],
        by simp [stepPipeline, sendResponse, queueToExport, hq],
        by simp [stepPipeline, sendResponse, queueToExport, hq, stageNvc, countMethod],
        by simp,
        by simp [stepPipeline, sendResponse, queueToExport, hq],
        by simp [stepPipeline, sendResponse, queueToExport, hq]⟩
      simp [stepPipeline, sendResponse, queueToExport, hq, onErrorPath]
    | false =>
      refine ⟨[⟨env.vatAdminVatId, makeVatRootObjectSlot, "newVatCallback",
          (makeErrorResponse vid e).body, (makeErrorResponse vid e).slots, "logFailure"⟩],
        by simp [stepPipeline, sendResponse, queueToExport, hq], ?_,
        by simp [stepPipeline, sendResponse, queueToExport, hq],
        by simp [stepPipeline, sendResponse, queueToExport, hq],
        by simp [stepPipeline, sendResponse, queueToExport, hq],
        by simp [stepPipeline, sendResponse, queueToExport, hq, stageNvc, countMethod],
        ?_,
        by simp [stepPipeline, sendResponse, queueToExport, hq],
        by simp [stepPipeline, sendResponse, queueToExport, hq]⟩
      · simp [stepPipeline, sendResponse, queueToExport, hq, onErrorPath]
      · intro m hm _
        have hm2 : m = ⟨env.vatAdminVatId, makeVatRootObjectSlot, "newVatCallback",
            (makeErrorResponse vid e).body, (makeErrorResponse vid e).slots,
            "logFailure"⟩ := by simpa using hm
        subst hm2
        exact ⟨rfl, rfl, rfl, rfl⟩
  | sent r =>
    cases r with
    | ok u =>
      exact ⟨[], by simp [stepPipeline], by simp [stepPipeline, onErrorPath],
        by simp [stepPipeline], by simp [stepPipeline], by simp [stepPipeline],
        by simp [stepPipeline, stageNvc, countMethod], by simp,
        by simp [stepPipeline], by simp [stepPipeline]⟩
    | err e2 =>
      refine ⟨[], by simp [stepPipeline], ?_,
        by simp [stepPipeline], by simp [stepPipeline], by simp [stepPipeline],
        by simp [stepPipeline, stageNvc, countMethod], by simp,
        by simp [stepPipeline], by simp [stepPipeline]⟩
      intro hqf
      exact absurd (hp hqf) (by simp)
  | settled l =>
    exact ⟨[], by simp [stepPipeline], by simpa [stepPipeline, onErrorPath] using hp,
      by simp [stepPipeline], by simp [stepPipeline], by simp [stepPipeline],
      by simp [stepPipeline, countMethod], by simp,
      by simp [stepPipeline], by simp [stepPipeline]⟩

/-- Over any schedule, a creation whose build stage fails with e never
registers a vat manager, never allocates an export slot, stays on the
error path, and only appends failure newVatCallback messages (with the
errorBody and no slots) besides termination notices. -/
theorem runEvents_errorPath (env : Env) (events : List Event) :
    ∀ p st (e : JsErr), makeBuildRootObject p.bundle = .err e →
      onErrorPath env p.vatID e p.stage →
      ∃ ms,
        (runEvents env p st events).2.runQueue = st.runQueue ++ ms ∧
        onErrorPath env p.vatID e (runEvents env p st events).1.stage ∧
        (runEvents env p st events).2.vatManagers = st.vatManagers ∧
        (runEvents env p st events).2.exports = st.exports ∧
        (runEvents env p st events).2.nextKernelSlot = st.nextKernelSlot ∧
        countMethod ms "newVatCallback" + stageNvc p.stage =
          stageNvc (runEvents env p st events).1.stage ∧
        (∀ m ∈ ms, m.method = "newVatCallback" →
          m.body = errorBody p.vatID e ∧ m.slots = [] ∧
          m.target = env.vatAdminVatId ∧ m.targetSlot = makeVatRootObjectSlot) := by
  induction events with
  | nil =>
    intro p st e _ hp
    exact ⟨[], by simp [runEvents], by simpa [runEvents] using hp, by simp [runEvents],
      by simp [runEvents], by simp [runEvents], by simp [runEvents, countMethod],
      by simp⟩
  | cons ev rest ih =>
    intro p st e hb hp
    cases ev with
    | crank =>
      obtain ⟨ms1, hq1, hp1, hv1, he1, hk1, hc1, hm1, hvid1, hbun1⟩ :=
        stepPipeline_errorPath env p st e hb hp
      obtain ⟨ms2, hq2, hp2, hv2, he2, hk2, hc2, hm2⟩ :=
        ih (stepPipeline env p st).1 (stepPipeline env p st).2 e
          (by rw [hbun1]; exact hb) (by rw [hvid1]; exact hp1)
      refine ⟨ms1 ++ ms2, ?_, ?_, ?_, ?_, ?_, ?_, ?_⟩
      · simp only [runEvents]
        rw [hq2, hq1, List.append_assoc]
      · simp only [runEvents]
        rw [← hvid1]
        exact hp2
      · simp only [runEvents]
        rw [hv2, hv1]
      · simp only [runEvents]
        rw [he2, he1]
      · simp only [runEvents]
        rw [hk2, hk1]
      · simp only [runEvents]
        rw [countMethod_append]
        omega
      · intro m hm hmeth
        rcases List.mem_append.mp hm with h | h
        · exact hm1 m h hmeth
        · have := hm2 m h hmeth
          rw [hvid1] at this
          exact this
    | terminate err2 =>
      obtain ⟨ms1, hq1, hm1, _, hnvc1, hstage1, hvid1, hbun1, _, _, _, _, _,
        hv1, he1, hk1⟩ := notifyTermination_facts env err2 p st
      obtain ⟨ms2, hq2, hp2, hv2, he2, hk2, hc2, hm2⟩ :=
        ih (notifyTermination env err2 p st).1 (notifyTermination env err2 p st).2 e
          (by rw [hbun1]; exact hb) (by rw [hvid1, hstage1]; exact hp)
      refine ⟨ms1 ++ ms2, ?_, ?_, ?_, ?_, ?_, ?_, ?_⟩
      · simp only [runEvents]
        rw [hq2, hq1, List.append_assoc]
      · simp only [runEvents]
        rw [← hvid1]
        exact hp2
      · simp only [runEvents]
        rw [hv2, hv1]
      · simp only [runEvents]
        rw [he2, he1]
      · simp only [runEvents]
        rw [hk2, hk1]
      · simp only [runEvents]
        rw [countMethod_append]
        rw [hstage1] at hc2
        omega
      · intro m hm hmeth
        rcases List.mem_append.mp hm with h | h
        · exact absurd hmeth (by simp [(hm1 m h).1])
        · have := hm2 m h hmeth
          rw [hvid1] at this
          exact this

/-- A schedule with no crank leaves the pipeline stage unchanged and adds
no newVatCallback message. -/
theorem runEvents_noCrank (env : Env) (events : List Event) :
    ∀ p st, Event.crank ∉ events →
      (runEvents env p st events).1.stage = p.stage ∧
      ∃ ms, (runEvents env p st events).2.runQueue = st.runQueue ++ ms ∧
        countMethod ms "newVatCallback" = 0 := by
  induction events with
  | nil =>
    intro p st _
    exact ⟨by simp [runEvents], ⟨[], by simp [runEvents], by simp [countMethod]⟩⟩
  | cons ev rest ih =>
    intro p st hno
    cases ev with
    | crank => exact absurd (by simp) (fun h => hno (h : Event.crank ∈ _))
    | terminate err2 =>
      obtain ⟨ms1, hq1, hm1, _, hnvc1, hstage1, _⟩ := notifyTermination_facts env err2 p st
      obtain ⟨hst2, ms2, hq2, hnvc2⟩ :=
        ih (notifyTermination env err2 p st).1 (notifyTermination env err2 p st).2
          (fun h => hno (List.mem_cons_of_mem _ h))
      refine ⟨?_, ms1 ++ ms2, ?_, ?_⟩
      · simp only [runEvents]
        rw [hst2, hstage1]
      · simp only [runEvents]
        rw [hq2, hq1, List.append_assoc]
      · rw [countMethod_append, hnvc1, hnvc2]

/-- Each crank advances the pipeline one stage until it is settled. -/
theorem stepPipeline_stageIdx (env : Env) (p : CreationProcess) (st : KernelState) :
    stageIdx (stepPipeline env p st).1.stage = min (stageIdx p.stage + 1) 5 := by
  rcases p with ⟨vid, b, mt, term, stg⟩
  cases stg with
  | start => simp [stepPipeline, stageIdx]
  | built r =>
    cases r with
    | err e => simp [stepPipeline, stageIdx]
    | ok ns =>
      cases henv : env.addVatManagerThrows <;>
        simp [stepPipeline, addVatManager, henv, stageIdx]
  | managed r =>
    cases r with
    | err e => simp [stepPipeline, stageIdx]
    | ok u =>
      cases henv : env.addExportThrows <;>
        simp [stepPipeline, makeSuccessResponse, addExport, henv, stageIdx]
  | responded r =>
    cases r with
    | err e => simp [stepPipeline, stageIdx]
    | ok args =>
      cases hq : env.queueToExportThrows <;>
        simp [stepPipeline, sendResponse, queueToExport, hq, stageIdx]
  | sent r =>
    cases r with
    | err e => simp [stepPipeline, stageIdx]
    | ok u => simp [stepPipeline, stageIdx]
  | settled l => simp [stepPipeline, stageIdx]

/-- After enough cranks (five from the start), the pipeline is settled. -/
theorem runEvents_cranks_settled (env : Env) :
    ∀ (n : Nat) (p : CreationProcess) (st : KernelState), 5 ≤ stageIdx p.stage + n →
      ∃ l, (runEvents env p st (List.replicate n Event.crank)).1.stage = .settled l := by
  intro n
  induction n with
  | zero =>
    intro p st h
    cases hstg : p.stage with
    | settled l => exact ⟨l, by simp [runEvents, hstg]⟩
    | start => rw [hstg] at h; simp [stageIdx] at h
    | built r => rw [hstg] at h; simp [stageIdx] at h
    | managed r => rw [hstg] at h; simp [stageIdx] at h
    | responded r => rw [hstg] at h; simp [stageIdx] at h
    | sent r => rw [hstg] at h; simp [stageIdx] at h
  | succ n ihn =>
    intro p st h
    have hidx := stepPipeline_stageIdx env p st
    have hnext : 5 ≤ stageIdx (stepPipeline env p st).1.stage + n := by omega
    have := ihn (stepPipeline env p st).1 (stepPipeline env p st).2 hnext
    rw [List.replicate_succ]
    simpa [runEvents] using this

/-- A settled pipeline is inert: further cranks change nothing. -/
theorem stepPipeline_settled (env : Env) (p : CreationProcess) (st : KernelState)
    (l : Option JsErr) (h : p.stage = .settled l) : stepPipeline env p st = (p, st) := by
  simp [stepPipeline, h]

/-- Claim C1: over any schedule interleaving the creation pipeline's cranks
with arbitrarily many termination events, at most one newVatCallback
message is ever appended to the run queue for a creation started by
createVatDynamically — a second send or a racing termination cannot
duplicate it — and when the export and queue endowments do not throw and
the pipeline has settled, exactly one was appended, addressed to the
administrator vat's root object slot. -/
theorem newVatCallback_exactly_once (env : Env) (st : KernelState) (b : BundleInput)
    (events : List Event) :
    ∃ ms,
      (runEvents env (createVatDynamically st b).process
        (createVatDynamically st b).state events).2.runQueue = st.runQueue ++ ms ∧
      countMethod ms "newVatCallback" ≤ 1 ∧
      (∀ m ∈ ms, m.method = "newVatCallback" →
        m.target = env.vatAdminVatId ∧ m.targetSlot = makeVatRootObjectSlot) ∧
      (∀ logged, env.addExportThrows = none → env.queueToExportThrows = false →
        (runEvents env (createVatDynamically st b).process
          (createVatDynamically st b).state events).1.stage = .settled logged →
        countMethod ms "newVatCallback" = 1) := by
  obtain ⟨ms, hq, hc, hm, hg⟩ := runEvents_nvc env events
    (createVatDynamically st b).process (createVatDynamically st b).state
  have hstart : (createVatDynamically st b).process.stage = .start := rfl
  have h0 : stageNvc Stage.start = 0 := rfl
  rw [hstart, h0] at hc
  refine ⟨ms, hq, ?_, hm, ?_⟩
  · have hle := stageNvc_le_one (runEvents env (createVatDynamically st b).process
      (createVatDynamically st b).state events).1.stage
    omega
  · intro logged h1 h2 hset
    have hgood := hg h1 h2 (by trivial)
    rw [hset] at hgood
    cases logged with
    | none =>
      rw [hset] at hc
      have h1b : stageNvc (Stage.settled none) = 1 := rfl
      rw [h1b] at hc
      omega
    | some e => exact absurd hgood (by simp [goodStage])

/-- Witness for C1 at a concrete success run with a racing termination:
exactly one newVatCallback message ends up on the queue. -/
theorem newVatCallback_exactly_once_witness :
    countMethod ((runEvents ⟨"v3", none, none, false⟩
      (createVatDynamically ⟨10, [], [], 42, []⟩ (.objVal false (.loaded ⟨true⟩))).process
      (createVatDynamically ⟨10, [], [], 42, []⟩ (.objVal false (.loaded ⟨true⟩))).state
      [.crank, .terminate none, .crank, .crank, .crank, .crank]).2.runQueue)
      "newVatCallback" = 1 := by
  obtain ⟨ms, hq, _, _, hone⟩ := newVatCallback_exactly_once ⟨"v3", none, none, false⟩
    ⟨10, [], [], 42, []⟩ (.objVal false (.loaded ⟨true⟩))
    [.crank, .terminate none, .crank, .crank, .crank, .crank]
  have h1 := hone none rfl rfl (by decide)
  rw [hq]
  simpa using h1

/-- Claim C2: for every bundle, valid or not, createVatDynamically returns
the freshly allocated vat id synchronously; at that moment the vat manager
registry, the export table and the run queue are untouched and the
background pipeline has not run any stage. -/
theorem createVatDynamically_synchronous (st : KernelState) (b : BundleInput) :
    (createVatDynamically st b).vatID = "v" ++ toString st.nextVatID ∧
    (createVatDynamically st b).state.nextVatID = st.nextVatID + 1 ∧
    (createVatDynamically st b).state.vatManagers = st.vatManagers ∧
    (createVatDynamically st b).state.exports = st.exports ∧
    (createVatDynamically st b).state.nextKernelSlot = st.nextKernelSlot ∧
    (createVatDynamically st b).state.runQueue = st.runQueue ∧
    (createVatDynamically st b).process.stage = .start ∧
    (createVatDynamically st b).process.vatID = (createVatDynamically st b).vatID ∧
    (createVatDynamically st b).process.bundle = b :=
  ⟨rfl, rfl, rfl, rfl, rfl, rfl, rfl, rfl, rfl⟩

/-- Claim C4: the termination notifier is idempotent over any schedule —
at most one vatTerminated message is ever appended, no matter how many
termination events fire with whatever error arguments — every such message
goes to the admin vat's root object slot with an empty slot list and a
body holding the vat id and an error descriptor or undefined marker, and
when the queue endowment does not throw, a schedule with at least one
termination event appends exactly one. -/
theorem vatTerminated_idempotent (env : Env) (st : KernelState) (b : BundleInput)
    (events : List Event) :
    ∃ ms,
      (runEvents env (createVatDynamically st b).process
        (createVatDynamically st b).state events).2.runQueue = st.runQueue ++ ms ∧
      countMethod ms "vatTerminated" ≤ 1 ∧
      (∀ m ∈ ms, m.method = "vatTerminated" →
        m.target = env.vatAdminVatId ∧ m.targetSlot = makeVatRootObjectSlot ∧
        m.slots = [] ∧
        ∃ e, m.body = terminationBody (createVatDynamically st b).vatID e) ∧
      (env.queueToExportThrows = false → (∃ e, Event.terminate e ∈ events) →
        countMethod ms "vatTerminated" = 1) := by
  obtain ⟨ms, hq, hc, hm, hone⟩ := runEvents_vt env events
    (createVatDynamically st b).process (createVatDynamically st b).state
  have hterm : (createVatDynamically st b).process.terminated = false := rfl
  rw [hterm] at hc
  simp only [if_neg Bool.false_ne_true] at hc
  refine ⟨ms, hq, hc, ?_, ?_⟩
  · intro m hmem hmeth
    exact hm m hmem hmeth
  · intro hqf hex
    have hge := hone hqf rfl hex
    omega

/-- Witness for C4 at a concrete run in which termination fires twice:
exactly one vatTerminated message ends up on the queue. -/
theorem vatTerminated_idempotent_witness :
    countMethod ((runEvents ⟨"v3", none, none, false⟩
      (createVatDynamically ⟨10, [], [], 42, []⟩ (.objVal false (.loaded ⟨true⟩))).process
      (createVatDynamically ⟨10, [], [], 42, []⟩ (.objVal false (.loaded ⟨true⟩))).state
      [.crank, .terminate (some ⟨"Error", "boom"⟩), .terminate none, .crank,
        .crank, .crank, .crank]).2.runQueue) "vatTerminated" = 1 := by
  obtain ⟨ms, hq, _, _, hone⟩ := vatTerminated_idempotent ⟨"v3", none, none, false⟩
    ⟨10, [], [], 42, []⟩ (.objVal false (.loaded ⟨true⟩))
    [.crank, .terminate (some ⟨"Error", "boom"⟩), .terminate none, .crank,
      .crank, .crank, .crank]
  have h1 := hone rfl ⟨some ⟨"Error", "boom"⟩, by decide⟩
  rw [hq]
  simpa using h1

/-- Claim C5: the creation notification is never enqueued in the caller's
own turn — createVatDynamically itself leaves the run queue untouched,
and any schedule containing no pipeline crank (in particular, the empty
remainder of the requesting turn) adds no newVatCallback message. -/
theorem notification_deferred (env : Env) (st : KernelState) (b : BundleInput)
    (events : List Event) (hnc : Event.crank ∉ events) :
    (createVatDynamically st b).state.runQueue = st.runQueue ∧
    ∃ ms, (runEvents env (createVatDynamically st b).process
        (createVatDynamically st b).state events).2.runQueue = st.runQueue ++ ms ∧
      countMethod ms "newVatCallback" = 0 := by
  obtain ⟨_, ms, hq, hz⟩ := runEvents_noCrank env events
    (createVatDynamically st b).process (createVatDynamically st b).state hnc
  exact ⟨rfl, ms, hq, hz⟩

/-- Witness for C5 at a concrete schedule holding only a termination
event: the queue is unchanged at return and gains no newVatCallback. -/
theorem notification_deferred_witness :
    (createVatDynamically ⟨10, [], [], 42, []⟩ (.strVal "oops")).state.runQueue = [] ∧
    ∃ ms, (runEvents ⟨"v3", none, none, false⟩
        (createVatDynamically ⟨10, [], [], 42, []⟩ (.strVal "oops")).process
        (createVatDynamically ⟨10, [], [], 42, []⟩ (.strVal "oops")).state
        [.terminate none]).2.runQueue = [] ++ ms ∧
      countMethod ms "newVatCallback" = 0 := by
  have h := notification_deferred ⟨"v3", none, none, false⟩ ⟨10, [], [], 42, []⟩
    (.strVal "oops") [.terminate none] (by decide)
  exact h

/-- Claim C8: on every creation request, whatever the bundle, the meter
record is provisioned together with the vat id in the synchronous part —
with refillEachCrank and refillIfExhausted both false — before the
pipeline (and hence before any bundle validation) has run. -/
theorem meter_failStop_default (st : KernelState) (b : BundleInput) :
    (createVatDynamically st b).process.meter =
      { refillEachCrank := false, refillIfExhausted := false } ∧
    (createVatDynamically st b).process.stage = .start ∧
    (createVatDynamically st b).process.vatID = (createVatDynamically st b).vatID :=
  ⟨rfl, rfl, rfl⟩

/-- Claim C10: the bundle-kind validation fails with the plain-string
error exactly on the inputs whose typeof is not 'object' — strings,
numbers, functions, undefined — while any typeof-object input, null
included, passes it and proceeds into the loading stage (importBundle
followed by the entry-point check). -/
theorem bundle_validation_typeof (b : BundleInput) :
    (typeofBundle b ≠ "object" →
      makeBuildRootObject b =
        .err (mkError "createVatDynamically() requires bundle, not a plain string")) ∧
    (typeofBundle b = "object" →
      makeBuildRootObject b = loadingStage (importBundle b)) ∧
    (∀ imp, typeofBundle (.objVal true imp) = "object" ∧
      makeBuildRootObject (.objVal true imp) = loadingStage imp) := by
  refine ⟨?_, ?_, ?_⟩
  · intro h
    cases b with
    | objVal isNull imp => exact absurd rfl h
    | strVal s => simp [makeBuildRootObject, typeofBundle]
    | numVal n => simp [makeBuildRootObject, typeofBundle]
    | funVal => simp [makeBuildRootObject, typeofBundle]
    | undefVal => simp [makeBuildRootObject, typeofBundle]
  · intro h
    cases b with
    | objVal isNull imp =>
      cases imp with
      | failed e => simp [makeBuildRootObject, loadingStage, importBundle, typeofBundle]
      | loaded ns =>
        cases ns with
        | mk f =>
          cases f <;>
            simp [makeBuildRootObject, loadingStage, importBundle, typeofBundle]
    | strVal s => exact absurd h (by simp [typeofBundle])
    | numVal n => exact absurd h (by simp [typeofBundle])
    | funVal => exact absurd h (by simp [typeofBundle])
    | undefVal => exact absurd h (by simp [typeofBundle])
  · intro imp
    refine ⟨rfl, ?_⟩
    cases imp with
    | failed e => simp [makeBuildRootObject, loadingStage, importBundle, typeofBundle]
    | loaded ns =>
      cases ns with
      | mk f =>
        cases f <;>
          simp [makeBuildRootObject, loadingStage, importBundle, typeofBundle]

/-- Witness for C10: a plain string fails the validation with the exact
plain-string error, and a null bundle proceeds into the loading stage. -/
theorem bundle_validation_typeof_witness :
    makeBuildRootObject (.strVal "not-an-object") =
      .err (mkError "createVatDynamically() requires bundle, not a plain string") ∧
    makeBuildRootObject (.objVal true (.failed (mkError "cannot import null"))) =
      loadingStage (.failed (mkError "cannot import null")) := by
  refine ⟨(bundle_validation_typeof (.strVal "not-an-object")).1 (by decide), ?_⟩
  exact ((bundle_validation_typeof
    (.objVal true (.failed (mkError "cannot import null")))).2.2
    (.failed (mkError "cannot import null"))).2

/-- Claim C3 counterexample: at the plain-string input of the spec's
scenario, the produced failure body carries the "Error: " name prefix
added by the error-to-string conversion in makeErrorResponse, so it is
not the bare message the claim states. -/
theorem plainString_error_text_counterexample :
    (runEvents ⟨"v3", none, none, false⟩
      (createVatDynamically ⟨11, [], [], 0, []⟩ (.strVal "not-an-object")).process
      (createVatDynamically ⟨11, [], [], 0, []⟩ (.strVal "not-an-object")).state
      [.crank, .crank, .crank, .crank, .crank]).2.runQueue.map VatMessage.body ≠
      ["[" ++ jsonString "v11" ++ ",\x7b\"error\":" ++
        jsonString "createVatDynamically() requires bundle, not a plain string" ++
        "\x7d]"] ∧
    (runEvents ⟨"v3", none, none, false⟩
      (createVatDynamically ⟨11, [], [], 0, []⟩ (.strVal "not-an-object")).process
      (createVatDynamically ⟨11, [], [], 0, []⟩ (.strVal "not-an-object")).state
      [.crank, .crank, .crank, .crank, .crank]).2.runQueue.map VatMessage.body =
      [errorBody "v11"
        (mkError "createVatDynamically() requires bundle, not a plain string")] :=
  ⟨by decide, by decide⟩

/-- Claim C3 (amended): if the bundle is a plain string, no vat manager is
ever registered and no export slot is ever allocated over any schedule,
every newVatCallback sent carries the body [vatID, \x7b error: "Error:
createVatDynamically() requires bundle, not a plain string" \x7d] — the
stringified error, name prefix included — with an empty slot list, and
when the queue endowment does not throw and the pipeline has settled,
exactly one such notification was sent. -/
theorem plainString_failure_notification (env : Env) (st : KernelState) (s : String)
    (events : List Event) :
    ∃ ms,
      (runEvents env (createVatDynamically st (.strVal s)).process
        (createVatDynamically st (.strVal s)).state events).2.runQueue =
        st.runQueue ++ ms ∧
      (runEvents env (createVatDynamically st (.strVal s)).process
        (createVatDynamically st (.strVal s)).state events).2.vatManagers =
        st.vatManagers ∧
      (runEvents env (createVatDynamically st (.strVal s)).process
        (createVatDynamically st (.strVal s)).state events).2.exports = st.exports ∧
      (∀ m ∈ ms, m.method = "newVatCallback" →
        m.body = errorBody (createVatDynamically st (.strVal s)).vatID
          (mkError "createVatDynamically() requires bundle, not a plain string") ∧
        m.slots = [] ∧ m.target = env.vatAdminVatId) ∧
      (∀ logged, env.queueToExportThrows = false →
        (runEvents env (createVatDynamically st (.strVal s)).process
          (createVatDynamically st (.strVal s)).state events).1.stage =
          .settled logged →
        countMethod ms "newVatCallback" = 1) := by
  obtain ⟨ms, hq, hpath, hv, he, _, hc, hm⟩ := runEvents_errorPath env events
    (createVatDynamically st (.strVal s)).process
    (createVatDynamically st (.strVal s)).state
    (mkError "createVatDynamically() requires bundle, not a plain string")
    rfl (by trivial)
  refine ⟨ms, hq, hv, he, ?_, ?_⟩
  · intro m hmem hmeth
    obtain ⟨h1, h2, h3, _⟩ := hm m hmem hmeth
    exact ⟨h1, h2, h3⟩
  · intro logged hqf hset
    rw [hset] at hpath
    have hlog : logged = none := hpath hqf
    subst hlog
    rw [hset] at hc
    have h1b : stageNvc (Stage.settled none) = 1 := rfl
    have h0 : stageNvc (createVatDynamically st (.strVal s)).process.stage = 0 := rfl
    rw [h1b, h0] at hc
    omega

/-- Witness for the amended C3: the concrete plain-string run settles and
yields exactly one newVatCallback message. -/
theorem plainString_failure_notification_witness :
    countMethod ((runEvents ⟨"v3", none, none, false⟩
      (createVatDynamically ⟨11, [], [], 0, []⟩ (.strVal "not-an-object")).process
      (createVatDynamically ⟨11, [], [], 0, []⟩ (.strVal "not-an-object")).state
      [.crank, .crank, .crank, .crank, .crank]).2.runQueue) "newVatCallback" = 1 := by
  obtain ⟨ms, hq, _, _, _, hone⟩ := plainString_failure_notification
    ⟨"v3", none, none, false⟩ ⟨11, [], [], 0, []⟩ "not-an-object"
    [.crank, .crank, .crank, .crank, .crank]
  have h1 := hone none rfl (by decide)
  rw [hq]
  simpa using h1

/-- Claim C6 counterexample: at the no-entry-point input of the spec's
scenario, the produced failure body's error text is the stringified error
"Error: vat source bundle does not export buildRootObject function",
not the bare message the claim states. -/
theorem missingEntryPoint_error_text_counterexample :
    (runEvents ⟨"v3", none, none, false⟩
      (createVatDynamically ⟨12, [], [], 0, []⟩ (.objVal false (.loaded ⟨false⟩))).process
      (createVatDynamically ⟨12, [], [], 0, []⟩ (.objVal false (.loaded ⟨false⟩))).state
      [.crank, .crank, .crank, .crank, .crank]).2.runQueue.map VatMessage.body ≠
      ["[" ++ jsonString "v12" ++ ",\x7b\"error\":" ++
        jsonString "vat source bundle does not export buildRootObject function" ++
        "\x7d]"] ∧
    (runEvents ⟨"v3", none, none, false⟩
      (createVatDynamically ⟨12, [], [], 0, []⟩ (.objVal false (.loaded ⟨false⟩))).process
      (createVatDynamically ⟨12, [], [], 0, []⟩ (.objVal false (.loaded ⟨false⟩))).state
      [.crank, .crank, .crank, .crank, .crank]).2.runQueue.map VatMessage.body =
      [errorBody "v12"
        (mkError "vat source bundle does not export buildRootObject function")] :=
  ⟨by decide, by decide⟩

/-- Claim C6 (amended): if the loaded module does not expose a
buildRootObject function, the pipeline takes the failure path — over any
schedule no export slot is allocated and no vat manager registered for
the vat — and every newVatCallback sent carries the stringified error
"Error: vat source bundle does not export buildRootObject function"
(name prefix included, identifying the missing export) with an empty
slot list; when the queue endowment does not throw and the pipeline has
settled, exactly one such notification was sent. -/
theorem missingEntryPoint_failure_notification (env : Env) (st : KernelState)
    (isNull : Bool) (events : List Event) :
    ∃ ms,
      (runEvents env (createVatDynamically st (.objVal isNull (.loaded ⟨false⟩))).process
        (createVatDynamically st (.objVal isNull (.loaded ⟨false⟩))).state
        events).2.runQueue = st.runQueue ++ ms ∧
      (runEvents env (createVatDynamically st (.objVal isNull (.loaded ⟨false⟩))).process
        (createVatDynamically st (.objVal isNull (.loaded ⟨false⟩))).state
        events).2.vatManagers = st.vatManagers ∧
      (runEvents env (createVatDynamically st (.objVal isNull (.loaded ⟨false⟩))).process
        (createVatDynamically st (.objVal isNull (.loaded ⟨false⟩))).state
        events).2.exports = st.exports ∧
      (∀ m ∈ ms, m.method = "newVatCallback" →
        m.body = errorBody
          (createVatDynamically st (.objVal isNull (.loaded ⟨false⟩))).vatID
          (mkError "vat source bundle does not export buildRootObject function") ∧
        m.slots = [] ∧ m.target = env.vatAdminVatId) ∧
      (∀ logged, env.queueToExportThrows = false →
        (runEvents env
          (createVatDynamically st (.objVal isNull (.loaded ⟨false⟩))).process
          (createVatDynamically st (.objVal isNull (.loaded ⟨false⟩))).state
          events).1.stage = .settled logged →
        countMethod ms "newVatCallback" = 1) := by
  obtain ⟨ms, hq, hpath, hv, he, _, hc, hm⟩ := runEvents_errorPath env events
    (createVatDynamically st (.objVal isNull (.loaded ⟨false⟩))).process
    (createVatDynamically st (.objVal isNull (.loaded ⟨false⟩))).state
    (mkError "vat source bundle does not export buildRootObject function")
    rfl (by trivial)
  refine ⟨ms, hq, hv, he, ?_, ?_⟩
  · intro m hmem hmeth
    obtain ⟨h1, h2, h3, _⟩ := hm m hmem hmeth
    exact ⟨h1, h2, h3⟩
  · intro logged hqf hset
    rw [hset] at hpath
    have hlog : logged = none := hpath hqf
    subst hlog
    rw [hset] at hc
    have h1b : stageNvc (Stage.settled none) = 1 := rfl
    have h0 : stageNvc
      (createVatDynamically st (.objVal isNull (.loaded ⟨false⟩))).process.stage = 0 := rfl
    rw [h1b, h0] at hc
    omega

/-- Witness for the amended C6: the concrete no-entry-point run settles
and yields exactly one newVatCallback message. -/
theorem missingEntryPoint_failure_notification_witness :
    countMethod ((runEvents ⟨"v3", none, none, false⟩
      (createVatDynamically ⟨12, [], [], 0, []⟩ (.objVal false (.loaded ⟨false⟩))).process
      (createVatDynamically ⟨12, [], [], 0, []⟩ (.objVal false (.loaded ⟨false⟩))).state
      [.crank, .crank, .crank, .crank, .crank]).2.runQueue) "newVatCallback" = 1 := by
  obtain ⟨ms, hq, _, _, _, hone⟩ := missingEntryPoint_failure_notification
    ⟨"v3", none, none, false⟩ ⟨12, [], [], 0, []⟩ false
    [.crank, .crank, .crank, .crank, .crank]
  have h1 := hone none rfl (by decide)
  rw [hq]
  simpa using h1

/-- Claim C7: on the success path exactly one export slot is allocated —
for the new vat's local object index 0, its root object — and the single
notification's body is the success body whose sole slot reference has
index 0, with the slot list holding exactly the freshly allocated kernel
slot (so the reference points at slots[0]); the vat manager is registered
and the pipeline settles cleanly. -/
theorem success_notification_root_export (env : Env) (st : KernelState) (isNull : Bool)
    (h1 : env.addVatManagerThrows = none) (h2 : env.addExportThrows = none)
    (h3 : env.queueToExportThrows = false) :
    (runEvents env (createVatDynamically st (.objVal isNull (.loaded ⟨true⟩))).process
      (createVatDynamically st (.objVal isNull (.loaded ⟨true⟩))).state
      (List.replicate 5 .crank)).2.exports =
      st.exports ++
        [((createVatDynamically st (.objVal isNull (.loaded ⟨true⟩))).vatID,
          makeVatRootObjectSlot, st.nextKernelSlot)] ∧
    (runEvents env (createVatDynamically st (.objVal isNull (.loaded ⟨true⟩))).process
      (createVatDynamically st (.objVal isNull (.loaded ⟨true⟩))).state
      (List.replicate 5 .crank)).2.runQueue =
      st.runQueue ++
        [⟨env.vatAdminVatId, makeVatRootObjectSlot, "newVatCallback",
          successBody (createVatDynamically st (.objVal isNull (.loaded ⟨true⟩))).vatID,
          [st.nextKernelSlot], "logFailure"⟩] ∧
    (runEvents env (createVatDynamically st (.objVal isNull (.loaded ⟨true⟩))).process
      (createVatDynamically st (.objVal isNull (.loaded ⟨true⟩))).state
      (List.replicate 5 .crank)).2.vatManagers =
      st.vatManagers ++
        [((createVatDynamically st (.objVal isNull (.loaded ⟨true⟩))).vatID,
          "dynamicVat" ++ (createVatDynamically st (.objVal isNull (.loaded ⟨true⟩))).vatID)] ∧
    (runEvents env (createVatDynamically st (.objVal isNull (.loaded ⟨true⟩))).process
      (createVatDynamically st (.objVal isNull (.loaded ⟨true⟩))).state
      (List.replicate 5 .crank)).1.stage = .settled none := by
  refine ⟨?_, ?_, ?_, ?_⟩ <;>
    simp [runEvents, stepPipeline, createVatDynamically, allocateUnusedVatID,
      makeGetMeter, makeBuildRootObject, typeofBundle, importBundle, addVatManager,
      makeSuccessResponse, addExport, sendResponse, queueToExport, h1, h2, h3,
      List.replicate]

/-- Witness for C7 at the spec's concrete scenario: vat "v10", export slot
42, success body referencing slots[0]. -/
theorem success_notification_root_export_witness :
    (runEvents ⟨"v3", none, none, false⟩
      (createVatDynamically ⟨10, [], [], 42, []⟩ (.objVal false (.loaded ⟨true⟩))).process
      (createVatDynamically ⟨10, [], [], 42, []⟩ (.objVal false (.loaded ⟨true⟩))).state
      (List.replicate 5 .crank)).2.exports =
      [("v10", makeVatRootObjectSlot, 42)] ∧
    (runEvents ⟨"v3", none, none, false⟩
      (createVatDynamically ⟨10, [], [], 42, []⟩ (.objVal false (.loaded ⟨true⟩))).process
      (createVatDynamically ⟨10, [], [], 42, []⟩ (.objVal false (.loaded ⟨true⟩))).state
      (List.replicate 5 .crank)).2.runQueue =
      [⟨"v3", makeVatRootObjectSlot, "newVatCallback", successBody "v10", [42],
        "logFailure"⟩] := by
  have h := success_notification_root_export ⟨"v3", none, none, false⟩
    ⟨10, [], [], 42, []⟩ false rfl rfl rfl
  refine ⟨?_, ?_⟩
  · simpa using h.1
  · simpa using h.2.1

/-- Claim C9: no error in the creation pipeline escapes — after five
cranks the chain is always settled; a settled pipeline is inert (no
retry); a registration failure is converted into the single failure
notification while nothing is registered or exported; a failure while
composing the notification (addExport throwing) or enqueuing it
(queueToExport throwing) ends settled with only the logged error, no
message sent and nothing exported. -/
theorem creation_errors_contained (env : Env) (st : KernelState) (b : BundleInput) :
    (∃ logged, (runEvents env (createVatDynamically st b).process
      (createVatDynamically st b).state (List.replicate 5 .crank)).1.stage =
      .settled logged) ∧
    (∀ (p : CreationProcess) (st2 : KernelState) (logged : Option JsErr),
      p.stage = .settled logged → stepPipeline env p st2 = (p, st2)) ∧
    (∀ e, env.addVatManagerThrows = some e → env.addExportThrows = none →
      env.queueToExportThrows = false → b = .objVal false (.loaded ⟨true⟩) →
      (runEvents env (createVatDynamically st b).process
        (createVatDynamically st b).state (List.replicate 5 .crank)).2.runQueue =
        st.runQueue ++ [⟨env.vatAdminVatId, makeVatRootObjectSlot, "newVatCallback",
          errorBody (createVatDynamically st b).vatID e, [], "logFailure"⟩] ∧
      (runEvents env (createVatDynamically st b).process
        (createVatDynamically st b).state (List.replicate 5 .crank)).2.vatManagers =
        st.vatManagers ∧
      (runEvents env (createVatDynamically st b).process
        (createVatDynamically st b).state (List.replicate 5 .crank)).2.exports =
        st.exports ∧
      (runEvents env (createVatDynamically st b).process
        (createVatDynamically st b).state (List.replicate 5 .crank)).1.stage =
        .settled none) ∧
    (∀ e, env.addExportThrows = some e → env.addVatManagerThrows = none →
      b = .objVal false (.loaded ⟨true⟩) →
      (runEvents env (createVatDynamically st b).process
        (createVatDynamically st b).state (List.replicate 5 .crank)).1.stage =
        .settled (some e) ∧
      (runEvents env (createVatDynamically st b).process
        (createVatDynamically st b).state (List.replicate 5 .crank)).2.runQueue =
        st.runQueue ∧
      (runEvents env (createVatDynamically st b).process
        (createVatDynamically st b).state (List.replicate 5 .crank)).2.exports =
        st.exports) ∧
    (env.addVatManagerThrows = none → env.addExportThrows = none →
      env.queueToExportThrows = true → b = .objVal false (.loaded ⟨true⟩) →
      (runEvents env (createVatDynamically st b).process
        (createVatDynamically st b).state (List.replicate 5 .crank)).1.stage =
        .settled (some (mkError "queueToExport failed")) ∧
      (runEvents env (createVatDynamically st b).process
        (createVatDynamically st b).state (List.replicate 5 .crank)).2.runQueue =
        st.runQueue) := by
  refine ⟨?_, ?_, ?_, ?_, ?_⟩
  · refine runEvents_cranks_settled env 5 _ _ ?_
    have h0 : stageIdx (createVatDynamically st b).process.stage = 0 := rfl
    omega
  · intro p st2 logged hset
    exact stepPipeline_settled env p st2 logged hset
  · intro e he1 he2 he3 hb
    subst hb
    refine ⟨?_, ?_, ?_, ?_⟩ <;>
      simp [runEvents, stepPipeline, createVatDynamically, allocateUnusedVatID,
        makeGetMeter, makeBuildRootObject, typeofBundle, importBundle, addVatManager,
        makeErrorResponse, makeSuccessResponse, addExport, sendResponse, queueToExport,
        he1, he2, he3, List.replicate]
  · intro e he1 he2 hb
    subst hb
    refine ⟨?_, ?_, ?_⟩ <;>
      simp [runEvents, stepPipeline, createVatDynamically, allocateUnusedVatID,
        makeGetMeter, makeBuildRootObject, typeofBundle, importBundle, addVatManager,
        makeErrorResponse, makeSuccessResponse, addExport, sendResponse, queueToExport,
        he1, he2, List.replicate]
  · intro he1 he2 he3 hb
    subst hb
    refine ⟨?_, ?_⟩ <;>
      simp [runEvents, stepPipeline, createVatDynamically, allocateUnusedVatID,
        makeGetMeter, makeBuildRootObject, typeofBundle, importBundle, addVatManager,
        makeErrorResponse, makeSuccessResponse, addExport, sendResponse, queueToExport,
        he1, he2, he3, List.replicate]

/-- Witness for C9: with a throwing registration endowment nothing is
registered, and with a throwing export-table endowment the pipeline
settles on the logged error. -/
theorem creation_errors_contained_witness :
    (runEvents ⟨"v3", some (mkError "registration refused"), none, false⟩
      (createVatDynamically ⟨7, [], [], 5, []⟩ (.objVal false (.loaded ⟨true⟩))).process
      (createVatDynamically ⟨7, [], [], 5, []⟩ (.objVal false (.loaded ⟨true⟩))).state
      (List.replicate 5 .crank)).2.vatManagers = [] ∧
    (runEvents ⟨"v3", none, some (mkError "export table refused"), false⟩
      (createVatDynamically ⟨8, [], [], 5, []⟩ (.objVal false (.loaded ⟨true⟩))).process
      (createVatDynamically ⟨8, [], [], 5, []⟩ (.objVal false (.loaded ⟨true⟩))).state
      (List.replicate 5 .crank)).1.stage =
      .settled (some (mkError "export table refused")) := by
  have ha := creation_errors_contained
    ⟨"v3", some (mkError "registration refused"), none, false⟩
    ⟨7, [], [], 5, []⟩ (.objVal false (.loaded ⟨true⟩))
  have hb := creation_errors_contained
    ⟨"v3", none, some (mkError "export table refused"), false⟩
    ⟨8, [], [], 5, []⟩ (.objVal false (.loaded ⟨true⟩))
  refine ⟨?_, ?_⟩
  · have h3 := ha.2.2.1 (mkError "registration refused") rfl rfl rfl rfl
    simpa using h3.2.1
  · exact (hb.2.2.2.1 (mkError "export table refused") rfl rfl rfl).1

end DynamicVat
